import Mathlib

/-!
Verification of the link-state router simulator in `src/Router.py`.

The Python source is shallowly embedded below: pure functions of the
router become Lean functions, the mutable router object becomes an
explicit state record (`RState`), index errors of Python list access are
modelled through `Option`/an explicit error component, and Python's
unbounded integers become `Int`.  Definitions come first, theorems after.
-/

namespace RouterSim

/-- The INFINITY sentinel from Router.py (`INFINITY = 999`). -/
def INFINITY : Int := 999

/-- The TTL_LIMIT constant from Router.py (`TTL_LIMIT = 10`). -/
def TTL_LIMIT : Int := 10

/-! ### Python indexing

Python list subscripts accept negative indices (counted from the end)
and raise IndexError outside `[-len, len)`.  `pyIdx` converts a Python
subscript on a list of length `len` into the actual position, or `none`
for an IndexError. -/

def pyIdx (len : Nat) (i : Int) : Option Nat :=
  if 0 ≤ i ∧ i < (len : Int) then some i.toNat
  else if -(len : Int) ≤ i ∧ i < 0 then some ((len : Int) + i).toNat
  else none

/-! ### Data model -/

/-- One entry of `self.neighbors`: `neighbor_id : (label, cost, port)`. -/
structure NeighborInfo where
  label : String
  cost : Int
  port : Int
deriving Repr, DecidableEq

/-- A parsed wire message `{"router_id": …, "link_state": …, "ttl": …}`.
A `none` field models an absent JSON key. -/
structure Message where
  router_id : Option Int
  link_state : Option (List Int)
  ttl : Option Int
deriving Repr, DecidableEq

/-- A Python exception escaping the embedded code. -/
inductive PyErr where
  | keyError : PyErr
  | indexError : PyErr
deriving Repr, DecidableEq

/-- One UDP send performed by the flooding engine: destination neighbor
id, its port, and the relayed message. -/
structure Send where
  nbrId : Int
  port : Int
  msg : Message
deriving Repr, DecidableEq

/-- The mutable state of one `Router` object: `router_id`, `total_nodes`,
`neighbors`, `link_state`, `received_link_states`, `forwarding_table`. -/
structure RState where
  routerId : Nat
  totalNodes : Nat
  neighbors : List (Int × NeighborInfo)
  linkState : List (List Int)
  received : Finset Int
  forwardingTable : List (Nat × Option Nat)
deriving DecidableEq

/-! ### Configuration loading (`Router.load_config`)

A configuration line is modelled after `line.split()`, i.e. as its list
of whitespace-separated tokens (a blank line is `[]`).  `pyInt` models
Python's `int(...)` on such a token — an optionally signed decimal
numeral — and `none` is a ValueError. -/

def digitVal (c : Char) : Option Nat :=
  if '0' ≤ c ∧ c ≤ '9' then some (c.toNat - 48) else none

def digitsAux : Nat → List Char → Option Nat
  | acc, [] => some acc
  | acc, c :: cs =>
    match digitVal c with
    | some d => digitsAux (acc * 10 + d) cs
    | none => none

def digitsToNat : List Char → Option Nat
  | [] => none
  | c :: cs =>
    match digitVal c with
    | some d => digitsAux d cs
    | none => none

def pyInt (s : String) : Option Int :=
  match s.data with
  | '-' :: cs => (digitsToNat cs).map fun v => -(v : Int)
  | '+' :: cs => (digitsToNat cs).map fun v => (v : Int)
  | cs => (digitsToNat cs).map fun v => (v : Int)

/-- A ValueError escaping `load_config` (uncaught in `Router.__init__`,
so it aborts startup). -/
inductive ConfigErr where
  | valueError : ConfigErr
deriving Repr, DecidableEq

/-- Python dict assignment `d[k] = v` on an insertion-ordered
association list: replace in place if the key exists, else append. -/
def dictSet (l : List (Int × NeighborInfo)) (k : Int) (v : NeighborInfo) :
    List (Int × NeighborInfo) :=
  if l.any fun p => p.1 = k then l.map fun p => if p.1 = k then (k, v) else p
  else l ++ [(k, v)]

/-- Processing of one configuration line past the first:
blank lines and lines with a field count other than 4 are skipped
(the latter with a printed warning); otherwise the three numeric fields
go through `int(...)`, whose failure is an uncaught ValueError. -/
def parseNeighborLine (nbrs : List (Int × NeighborInfo)) (line : List String) :
    Except ConfigErr (List (Int × NeighborInfo)) :=
  if line = [] then Except.ok nbrs
  else if line.length ≠ 4 then Except.ok nbrs
  else
    match pyInt (line.getD 1 ""), pyInt (line.getD 2 ""), pyInt (line.getD 3 "") with
    | some nid, some c, some p => Except.ok (dictSet nbrs nid ⟨line.getD 0 "", c, p⟩)
    | _, _, _ => Except.error ConfigErr.valueError

/-- The loop of `load_config` over the neighbor lines; an exception stops
processing and propagates. -/
def loadConfigLoop : List (Int × NeighborInfo) → List (List String) →
    Except ConfigErr (List (Int × NeighborInfo))
  | acc, [] => Except.ok acc
  | acc, line :: rest =>
    match parseNeighborLine acc line with
    | Except.ok acc2 => loadConfigLoop acc2 rest
    | Except.error e => Except.error e

/-- `load_config` on the tokenized lines after the node-count line. -/
def loadConfig (lines : List (List String)) : Except ConfigErr (List (Int × NeighborInfo)) :=
  loadConfigLoop [] lines

/-! ### Link-state initialization (`Router.initialize_link_state`)

Builds the `total_nodes × total_nodes` matrix of INFINITY, sets
`link_state[router_id][router_id] = 0`, then sets
`link_state[router_id][neighbor_id] = cost` for each configured
neighbor.  A neighbor id outside Python's index range is an IndexError
(`none`). -/

def initFold (selfId : Nat) :
    Option (List (List Int)) → List (Int × NeighborInfo) → Option (List (List Int))
  | acc, [] => acc
  | acc, p :: rest =>
    initFold selfId
      (acc.bind fun m =>
        (pyIdx (m.getD selfId []).length p.1).map fun j =>
          m.set selfId ((m.getD selfId []).set j p.2.cost))
      rest

def initLinkState (selfId n : Nat) (neighbors : List (Int × NeighborInfo)) :
    Option (List (List Int)) :=
  let base := List.replicate n (List.replicate n INFINITY)
  let m0 := base.set selfId ((base.getD selfId []).set selfId 0)
  initFold selfId (some m0) neighbors

/-! ### Receive-and-relay (`Router.process_received_message`)

Returns the state after the call, the UDP sends it performed, and the
Python exception that escaped, if any.  Mutations made before an
exception persist, exactly as for the Python object. -/

def relayTargets (neighbors : List (Int × NeighborInfo)) (senderId : Int)
    (row : List Int) (ttl : Int) : List Send :=
  (neighbors.filter fun p => decide ¬p.1 = senderId).map fun p =>
    { nbrId := p.1, port := p.2.port, msg := ⟨some senderId, some row, some ttl⟩ }

def processReceivedMessage (st : RState) (msg : Message) :
    RState × List Send × Option PyErr :=
  match msg.router_id with
  | none => (st, [], some PyErr.keyError)
  | some senderId =>
    match msg.link_state with
    | none => (st, [], some PyErr.keyError)
    | some row =>
      let ttl := msg.ttl.getD 0
      if ttl ≤ 0 then (st, [], none)
      else
        let st1 := { st with received := insert senderId st.received }
        match pyIdx st1.linkState.length senderId with
        | none => (st1, [], some PyErr.indexError)
        | some j =>
          if st1.linkState.getD j [] = row then (st1, [], none)
          else
            let st2 := { st1 with linkState := st1.linkState.set j row }
            if 0 < ttl - 1 then (st2, relayTargets st.neighbors senderId row (ttl - 1), none)
            else (st2, [], none)

/-! ### Shortest-path engine (`Router.compute_dijkstra`) -/

/-- State of the Dijkstra loop: `dist`, `prev`, `visited`. -/
structure DState where
  dist : List Int
  prev : List (Option Nat)
  visited : List Bool
deriving Repr, DecidableEq

/-- One iteration of the inner scan
`for v in range(n): if not visited[v] and dist[v] < min_distance: …`. -/
def selectStep (dist : List Int) (visited : List Bool) (acc : Int × Option Nat) (v : Nat) :
    Int × Option Nat :=
  if visited.getD v false = false ∧ dist.getD v INFINITY < acc.1
  then (dist.getD v INFINITY, some v)
  else acc

/-- The accumulator after the full scan, starting from
`min_distance = INFINITY, u = None`. -/
def selAcc (dist : List Int) (visited : List Bool) (n : Nat) : Int × Option Nat :=
  (List.range n).foldl (selectStep dist visited) (INFINITY, none)

/-- The selected node `u` of one outer iteration. -/
def selectMin (dist : List Int) (visited : List Bool) (n : Nat) : Option Nat :=
  (selAcc dist visited n).2

/-- One relaxation
`if link[u][v] < INFINITY and not visited[v]: alt = dist[u] + link[u][v]; …`. -/
def relaxStep (link : List (List Int)) (u : Nat) (s : DState) (v : Nat) : DState :=
  if (link.getD u []).getD v INFINITY < INFINITY ∧ s.visited.getD v false = false then
    if s.dist.getD u INFINITY + (link.getD u []).getD v INFINITY < s.dist.getD v INFINITY then
      { dist := s.dist.set v (s.dist.getD u INFINITY + (link.getD u []).getD v INFINITY),
        prev := s.prev.set v (some u),
        visited := s.visited }
    else s
  else s

/-- The inner relaxation loop `for v in range(n)`. -/
def relaxAll (link : List (List Int)) (u n : Nat) (s : DState) : DState :=
  (List.range n).foldl (relaxStep link u) s

/-- The outer loop `for _ in range(n)`: select the minimum unvisited
node, stop if there is none, otherwise mark it visited and relax. -/
def dijkstraLoop (link : List (List Int)) (n : Nat) : Nat → DState → DState
  | 0, s => s
  | Nat.succ k, s =>
    match selectMin s.dist s.visited n with
    | none => s
    | some u => dijkstraLoop link n k (relaxAll link u n { s with visited := s.visited.set u true })

/-- The initial Dijkstra state: `dist = [INFINITY]*n` with
`dist[self] = 0`, `prev = [None]*n`, `visited = [False]*n`. -/
def dijkstraInit (selfId n : Nat) : DState :=
  { dist := (List.replicate n INFINITY).set selfId 0,
    prev := List.replicate n none,
    visited := List.replicate n false }

/-- One full Dijkstra computation over the cost matrix `link`. -/
def dijkstra (link : List (List Int)) (selfId n : Nat) : DState :=
  dijkstraLoop link n n (dijkstraInit selfId n)

/-- The next-hop walk for one destination:
`next_hop = dest; while prev[next_hop] is not None and prev[next_hop] != self: next_hop = prev[next_hop]`
followed by `if prev[next_hop] is None: next_hop = None`.  The fuel
argument bounds the walk; `n + 1` steps suffice for the acyclic
predecessor lists Dijkstra produces. -/
def walkNextHop (prev : List (Option Nat)) (selfId : Nat) : Nat → Nat → Option Nat
  | 0, _ => none
  | Nat.succ k, cur =>
    match prev.getD cur none with
    | none => none
    | some p => if p = selfId then some cur else walkNextHop prev selfId k p

/-- Forwarding-table construction: one entry per destination in
`range(total_nodes)` other than the router itself. -/
def buildForwardingTable (prev : List (Option Nat)) (selfId n : Nat) :
    List (Nat × Option Nat) :=
  ((List.range n).filter fun d => decide ¬d = selfId).map fun d =>
    (d, walkNextHop prev selfId (n + 1) d)

/-- Dictionary lookup in the forwarding table. -/
def fwdLookup (t : List (Nat × Option Nat)) (d : Nat) : Option (Option Nat) :=
  match t with
  | [] => none
  | p :: rest => if p.1 = d then some p.2 else fwdLookup rest d

/-- One tick of the `compute_dijkstra` timer loop: defer (state
unchanged) while `len(received_link_states) < total_nodes`, otherwise
recompute and replace the forwarding table. -/
def computeTick (st : RState) : RState :=
  if st.received.card < st.totalNodes then st
  else
    let table :=
      buildForwardingTable (dijkstra st.linkState st.routerId st.totalNodes).prev
        st.routerId st.totalNodes
    { st with forwardingTable := table }

/-- The invariant of the Dijkstra loop used below: both arrays have
length `n`, the self distance is settled at 0 with self visited, all
tentative distances stay at most INFINITY, and a recorded predecessor
certifies a finite tentative distance. -/
def DInv (n selfId : Nat) (s : DState) : Prop :=
  s.dist.length = n ∧ s.prev.length = n ∧
  s.dist.getD selfId INFINITY = 0 ∧
  s.visited.getD selfId false = true ∧
  (∀ v, s.dist.getD v INFINITY ≤ INFINITY) ∧
  (∀ v p, s.prev.getD v none = some p → s.dist.getD v INFINITY < INFINITY)

/-! ### Small list lemmas -/

theorem getD_set_self {α : Type} (l : List α) (i : Nat) (x d : α) (h : i < l.length) :
    (l.set i x).getD i d = x := by
  induction l generalizing i with
  | nil => simp at h
  | cons a t ih =>
    cases i with
    | zero => rfl
    | succ j => simpa using ih j (by simpa using h)

theorem getD_set_ne {α : Type} (l : List α) (i j : Nat) (x d : α) (h : i ≠ j) :
    (l.set i x).getD j d = l.getD j d := by
  induction l generalizing i j with
  | nil => rfl
  | cons a t ih =>
    cases i with
    | zero =>
      cases j with
      | zero => exact absurd rfl h
      | succ jj => rfl
    | succ ii =>
      cases j with
      | zero => rfl
      | succ jj => simpa using ih ii jj fun hc => h (by simp [hc])

theorem getD_replicate {α : Type} (n i : Nat) (x d : α) (h : i < n) :
    (List.replicate n x).getD i d = x := by
  induction n generalizing i with
  | zero => simp at h
  | succ m ih =>
    cases i with
    | zero => rfl
    | succ j =>
      rw [List.replicate_succ]
      simpa using ih j (by omega)

theorem getD_eq_default {α : Type} (l : List α) (i : Nat) (d : α) (h : l.length ≤ i) :
    l.getD i d = d := by
  induction l generalizing i with
  | nil => simp [List.getD]
  | cons a t ih =>
    cases i with
    | zero => simp at h
    | succ j => simpa using ih j (by simpa using h)

/-- A fold preserves any invariant preserved by each step on list members. -/
theorem foldl_preserve {α β : Type} (P : α → Prop) (f : α → β → α) (l : List β)
    (h : ∀ a b, b ∈ l → P a → P (f a b)) (a : α) (ha : P a) : P (l.foldl f a) := by
  induction l generalizing a with
  | nil => exact ha
  | cons x xs ih =>
    exact ih (fun a b hb => h a b (List.mem_cons_of_mem _ hb)) _
      (h a x (List.mem_cons_self _ _) ha)

theorem pyIdx_nonneg (len : Nat) (i : Int) (h0 : 0 ≤ i) (h1 : i < (len : Int)) :
    pyIdx len i = some i.toNat := by
  simp [pyIdx, h0, h1]

theorem pyIdx_lt (len : Nat) (i : Int) (j : Nat) (h : pyIdx len i = some j) : j < len := by
  unfold pyIdx at h
  split at h
  · rename_i hc
    cases h
    omega
  · split at h
    · rename_i hc
      cases h
      omega
    · cases h

/-! ### Characterization of the minimum-selection scan -/

theorem selAcc_succ (dist : List Int) (visited : List Bool) (n : Nat) :
    selAcc dist visited (n + 1) = selectStep dist visited (selAcc dist visited n) n := by
  simp [selAcc, List.range_succ]

theorem selAcc_spec (dist : List Int) (visited : List Bool) :
    ∀ n : Nat,
      (selAcc dist visited n).1 ≤ INFINITY ∧
      (∀ v, v < n → visited.getD v false = false →
        (selAcc dist visited n).1 ≤ dist.getD v INFINITY) ∧
      ((selAcc dist visited n).2 = none → (selAcc dist visited n).1 = INFINITY) ∧
      (∀ u, (selAcc dist visited n).2 = some u →
        u < n ∧ visited.getD u false = false ∧
        dist.getD u INFINITY = (selAcc dist visited n).1 ∧
        (selAcc dist visited n).1 < INFINITY ∧
        (∀ v, v < u → visited.getD v false = false →
          dist.getD u INFINITY < dist.getD v INFINITY)) ∧
      ((∃ v, v < n ∧ visited.getD v false = false ∧ dist.getD v INFINITY < INFINITY) →
        (selAcc dist visited n).2 ≠ none) := by
  intro n
  induction n with
  | zero =>
    refine ⟨le_refl _, ?_, ?_, ?_, ?_⟩
    · intro v hv
      omega
    · intro _
      rfl
    · intro u hu
      simp [selAcc] at hu
    · rintro ⟨v, hv, _⟩
      omega
  | succ m ih =>
    obtain ⟨ih1, ih2, ih3, ih4, ih5⟩ := ih
    rw [selAcc_succ]
    unfold selectStep
    by_cases hg : visited.getD m false = false ∧
        dist.getD m INFINITY < (selAcc dist visited m).1
    · rw [if_pos hg]
      refine ⟨le_of_lt (lt_of_lt_of_le hg.2 ih1), ?_, ?_, ?_, ?_⟩
      · intro v hv hvv
        rcases Nat.lt_succ_iff_lt_or_eq.mp hv with h | h
        · exact le_trans (le_of_lt hg.2) (ih2 v h hvv)
        · subst h
          exact le_refl _
      · intro hc
        cases hc
      · intro u hu
        have hum : u = m := by
          cases hu
          rfl
        subst hum
        refine ⟨Nat.lt_succ_self _, hg.1, rfl, lt_of_lt_of_le hg.2 ih1, ?_⟩
        intro v hv hvv
        exact lt_of_lt_of_le hg.2 (ih2 v hv hvv)
      · intro _ hc
        cases hc
    · rw [if_neg hg]
      refine ⟨ih1, ?_, ih3, ?_, ?_⟩
      · intro v hv hvv
        rcases Nat.lt_succ_iff_lt_or_eq.mp hv with h | h
        · exact ih2 v h hvv
        · subst h
          have : ¬ dist.getD v INFINITY < (selAcc dist visited v).1 := fun hc => hg ⟨hvv, hc⟩
          omega
      · intro u hu
        obtain ⟨h1, h2, h3, h4, h5⟩ := ih4 u hu
        exact ⟨Nat.lt_succ_of_lt h1, h2, h3, h4, h5⟩
      · rintro ⟨v, hv, hvv, hlt⟩
        rcases Nat.lt_succ_iff_lt_or_eq.mp hv with h | h
        · exact ih5 ⟨v, h, hvv, hlt⟩
        · subst h
          intro hnone
          have hinf := ih3 hnone
          exact hg ⟨hvv, by omega⟩

theorem selectMin_none_iff (dist : List Int) (visited : List Bool) (n : Nat) :
    selectMin dist visited n = none ↔
      ∀ v, v < n → visited.getD v false = false → ¬ dist.getD v INFINITY < INFINITY := by
  obtain ⟨h1, h2, h3, h4, h5⟩ := selAcc_spec dist visited n
  unfold selectMin
  constructor
  · intro hn v hv hvv hlt
    exact h5 ⟨v, hv, hvv, hlt⟩ hn
  · intro hall
    cases hsel : (selAcc dist visited n).2 with
    | none => rfl
    | some u =>
      obtain ⟨hu1, hu2, hu3, hu4, _⟩ := h4 u hsel
      exact absurd (hu3 ▸ hu4) (hall u hu1 hu2)

theorem selectMin_some (dist : List Int) (visited : List Bool) (n u : Nat)
    (h : selectMin dist visited n = some u) :
    u < n ∧ visited.getD u false = false ∧ dist.getD u INFINITY < INFINITY ∧
    (∀ v, v < n → visited.getD v false = false →
      dist.getD u INFINITY ≤ dist.getD v INFINITY) ∧
    (∀ v, v < u → visited.getD v false = false →
      dist.getD u INFINITY < dist.getD v INFINITY) := by
  obtain ⟨h1, h2, h3, h4, h5⟩ := selAcc_spec dist visited n
  obtain ⟨hu1, hu2, hu3, hu4, hu5⟩ := h4 u h
  refine ⟨hu1, hu2, hu3 ▸ hu4, ?_, hu5⟩
  intro v hv hvv
  exact hu3 ▸ h2 v hv hvv

/-! ### The Dijkstra loop invariant -/

theorem relaxStep_DInv (n selfId : Nat) (link : List (List Int)) (u : Nat)
    (s : DState) (v : Nat) (hv : v < n) (h : DInv n selfId s) :
    DInv n selfId (relaxStep link u s v) := by
  obtain ⟨hdl, hpl, hself, hvis, hle, hprev⟩ := h
  unfold relaxStep
  split
  · rename_i hguard
    split
    · rename_i halt
      have hvne : v ≠ selfId := by
        intro hc
        rw [hc, hvis] at hguard
        simp at hguard
      refine ⟨by simpa using hdl, by simpa using hpl, ?_, hvis, ?_, ?_⟩
      · rw [getD_set_ne _ _ _ _ _ hvne]
        exact hself
      · intro w
        by_cases hw : v = w
        · subst hw
          rw [getD_set_self _ _ _ _ (by rw [hdl]; exact hv)]
          exact le_of_lt (lt_of_lt_of_le halt (hle v))
        · rw [getD_set_ne _ _ _ _ _ hw]
          exact hle w
      · intro w p hp
        by_cases hw : v = w
        · subst hw
          rw [getD_set_self _ _ _ _ (by rw [hdl]; exact hv)]
          exact lt_of_lt_of_le halt (hle v)
        · rw [getD_set_ne _ _ _ _ _ hw]
          rw [getD_set_ne _ _ _ _ _ hw] at hp
          exact hprev w p hp
    · exact ⟨hdl, hpl, hself, hvis, hle, hprev⟩
  · exact ⟨hdl, hpl, hself, hvis, hle, hprev⟩

theorem relaxAll_DInv (n selfId : Nat) (link : List (List Int)) (u : Nat)
    (s : DState) (h : DInv n selfId s) : DInv n selfId (relaxAll link u n s) :=
  foldl_preserve (DInv n selfId) (relaxStep link u) (List.range n)
    (fun a b hb ha => relaxStep_DInv n selfId link u a b (List.mem_range.mp hb) ha) s h

theorem mark_DInv (n selfId u : Nat) (s : DState) (h : DInv n selfId s) :
    DInv n selfId { s with visited := s.visited.set u true } := by
  obtain ⟨hdl, hpl, hself, hvis, hle, hprev⟩ := h
  refine ⟨hdl, hpl, hself, ?_, hle, hprev⟩
  by_cases hc : u = selfId
  · subst hc
    by_cases hlen : u < s.visited.length
    · exact getD_set_self _ _ _ _ hlen
    · have hset : s.visited.set u true = s.visited := by
        apply List.set_eq_of_length_le
        omega
      rw [hset]
      exact hvis
  · rw [getD_set_ne _ _ _ _ _ hc]
    exact hvis

theorem dijkstraLoop_DInv (link : List (List Int)) (n selfId : Nat) :
    ∀ k s, DInv n selfId s → DInv n selfId (dijkstraLoop link n k s) := by
  intro k
  induction k with
  | zero =>
    intro s h
    exact h
  | succ m ih =>
    intro s h
    unfold dijkstraLoop
    cases hsel : selectMin s.dist s.visited n with
    | none => exact h
    | some u => exact ih _ (relaxAll_DInv _ _ _ _ _ (mark_DInv _ _ _ _ h))

theorem dijkstraInit_dist (selfId n v : Nat) (h : selfId < n) :
    (dijkstraInit selfId n).dist.getD v INFINITY = if v = selfId then 0 else INFINITY := by
  unfold dijkstraInit
  by_cases hv : v = selfId
  · subst hv
    rw [if_pos rfl]
    exact getD_set_self _ _ _ _ (by simpa using h)
  · rw [if_neg hv, getD_set_ne _ _ _ _ _ fun hc => hv hc.symm]
    by_cases hvn : v < n
    · exact getD_replicate _ _ _ _ hvn
    · exact getD_eq_default _ _ _ (by simpa using Nat.le_of_not_lt hvn)

theorem dijkstraInit_visited (selfId n v : Nat) :
    (dijkstraInit selfId n).visited.getD v false = false := by
  unfold dijkstraInit
  by_cases hvn : v < n
  · exact getD_replicate _ _ _ _ hvn
  · exact getD_eq_default _ _ _ (by simpa using Nat.le_of_not_lt hvn)

theorem selectMin_init (selfId n : Nat) (h : selfId < n) :
    selectMin (dijkstraInit selfId n).dist (dijkstraInit selfId n).visited n = some selfId := by
  cases hsel : selectMin (dijkstraInit selfId n).dist (dijkstraInit selfId n).visited n with
  | none =>
    rw [selectMin_none_iff] at hsel
    refine absurd ?_ (hsel selfId h (dijkstraInit_visited selfId n selfId))
    rw [dijkstraInit_dist selfId n selfId h, if_pos rfl]
    norm_num [INFINITY]
  | some u =>
    obtain ⟨hu1, hu2, hu3, hu4, hu5⟩ := selectMin_some _ _ _ _ hsel
    have hle := hu4 selfId h (dijkstraInit_visited selfId n selfId)
    rw [dijkstraInit_dist selfId n selfId h, if_pos rfl] at hle
    by_cases hu : u = selfId
    · rw [hu]
    · rw [dijkstraInit_dist selfId n u h, if_neg hu] at hle
      norm_num [INFINITY] at hle

theorem init_marked_DInv (selfId n : Nat) (h : selfId < n) :
    DInv n selfId
      { dijkstraInit selfId n with
        visited := (dijkstraInit selfId n).visited.set selfId true } := by
  refine ⟨by simp [dijkstraInit], by simp [dijkstraInit], ?_, ?_, ?_, ?_⟩
  · rw [show ({ dijkstraInit selfId n with
        visited := (dijkstraInit selfId n).visited.set selfId true } : DState).dist
        = (dijkstraInit selfId n).dist from rfl]
    rw [dijkstraInit_dist selfId n selfId h, if_pos rfl]
  · show ((dijkstraInit selfId n).visited.set selfId true).getD selfId false = true
    exact getD_set_self _ _ _ _ (by simp [dijkstraInit]; exact h)
  · intro v
    show (dijkstraInit selfId n).dist.getD v INFINITY ≤ INFINITY
    rw [dijkstraInit_dist selfId n v h]
    by_cases hv : v = selfId
    · rw [if_pos hv]
      norm_num [INFINITY]
    · rw [if_neg hv]
  · intro v p hp
    have : (dijkstraInit selfId n).prev.getD v none = none := by
      unfold dijkstraInit
      by_cases hvn : v < n
      · exact getD_replicate _ _ _ _ hvn
      · exact getD_eq_default _ _ _ (by simpa using Nat.le_of_not_lt hvn)
    rw [this] at hp
    cases hp

theorem dijkstra_DInv (link : List (List Int)) (selfId n : Nat) (h : selfId < n) :
    DInv n selfId (dijkstra link selfId n) := by
  obtain ⟨k, hk⟩ : ∃ k, n = k + 1 := ⟨n - 1, by omega⟩
  subst hk
  unfold dijkstra
  show DInv (k + 1) selfId (dijkstraLoop link (k + 1) (k + 1) (dijkstraInit selfId (k + 1)))
  unfold dijkstraLoop
  rw [selectMin_init selfId (k + 1) h]
  exact dijkstraLoop_DInv link (k + 1) selfId k _
    (relaxAll_DInv _ _ _ _ _ (init_marked_DInv selfId (k + 1) h))

/-! ### Forwarding-table lookup lemmas -/

theorem fwdLookup_build (g : Nat → Option Nat) (d : Nat) (l : List Nat) :
    fwdLookup (l.map fun x => (x, g x)) d = if d ∈ l then some (g d) else none := by
  induction l with
  | nil => rfl
  | cons a t ih =>
    show (if a = d then some (g a) else fwdLookup (t.map fun x => (x, g x)) d) = _
    by_cases had : a = d
    · subst had
      simp
    · rw [if_neg had, ih]
      by_cases hdt : d ∈ t
      · rw [if_pos hdt, if_pos (List.mem_cons_of_mem _ hdt)]
      · rw [if_neg hdt, if_neg ?_]
        intro hc
        rcases List.mem_cons.mp hc with hcc | hcc
        · exact had hcc.symm
        · exact hdt hcc

theorem fwdLookup_buildForwardingTable (prev : List (Option Nat)) (selfId n d : Nat)
    (hd : d < n) (hds : d ≠ selfId) :
    fwdLookup (buildForwardingTable prev selfId n) d =
      some (walkNextHop prev selfId (n + 1) d) := by
  unfold buildForwardingTable
  rw [fwdLookup_build, if_pos]
  rw [List.mem_filter]
  exact ⟨List.mem_range.mpr hd, by simpa using hds⟩

theorem fwdLookup_buildForwardingTable_self (prev : List (Option Nat)) (selfId n : Nat) :
    fwdLookup (buildForwardingTable prev selfId n) selfId = none := by
  unfold buildForwardingTable
  rw [fwdLookup_build, if_neg]
  intro hc
  rw [List.mem_filter] at hc
  simpa using hc.2

theorem walkNextHop_none (prev : List (Option Nat)) (selfId k cur : Nat)
    (h : prev.getD cur none = none) :
    walkNextHop prev selfId (k + 1) cur = none := by
  unfold walkNextHop
  rw [h]

/-! ### Claim theorems -/

/-- C1: One run of the shortest-path computation starts from
`dist[self] = 0` with every other tentative distance INFINITY, repeatedly
selects the unvisited node of minimum tentative distance with ties broken
by lowest RouterId, relaxes its outgoing edges and marks it visited,
stops when no reachable unvisited node remains, marks destinations whose
distance stayed INFINITY as unreachable in the forwarding table rather
than erroring, and is deterministic for a fixed cost matrix. -/
theorem claim_C1 (link link2 : List (List Int)) (n selfId : Nat)
    (dist : List Int) (visited : List Bool) (prev0 : List (Option Nat))
    (u k : Nat) (s : DState)
    (h : selfId < n) (hlink : link = link2)
    (hu : selectMin dist visited n = some u) :
    ((dijkstraInit selfId n).dist.getD selfId INFINITY = 0 ∧
      ∀ v, v < n → v ≠ selfId → (dijkstraInit selfId n).dist.getD v INFINITY = INFINITY) ∧
    dijkstra link selfId n = dijkstraLoop link n n (dijkstraInit selfId n) ∧
    (u < n ∧ visited.getD u false = false ∧ dist.getD u INFINITY < INFINITY ∧
      (∀ v, v < n → visited.getD v false = false →
        dist.getD u INFINITY ≤ dist.getD v INFINITY) ∧
      (∀ v, v < u → visited.getD v false = false →
        dist.getD u INFINITY < dist.getD v INFINITY)) ∧
    dijkstraLoop link n (k + 1) ⟨dist, prev0, visited⟩ =
      dijkstraLoop link n k (relaxAll link u n ⟨dist, prev0, visited.set u true⟩) ∧
    (selectMin s.dist s.visited n = none ↔
      ∀ v, v < n → s.visited.getD v false = false →
        ¬ s.dist.getD v INFINITY < INFINITY) ∧
    (selectMin s.dist s.visited n = none → dijkstraLoop link n (k + 1) s = s) ∧
    (∀ d, d < n → d ≠ selfId →
      (dijkstra link selfId n).dist.getD d INFINITY = INFINITY →
      fwdLookup (buildForwardingTable (dijkstra link selfId n).prev selfId n) d =
        some none) ∧
    dijkstra link selfId n = dijkstra link2 selfId n := by
  refine ⟨⟨?_, ?_⟩, rfl, ?_, ?_, ?_, ?_, ?_, ?_⟩
  · rw [dijkstraInit_dist selfId n selfId h, if_pos rfl]
  · intro v hv hvs
    rw [dijkstraInit_dist selfId n v h, if_neg hvs]
  · exact selectMin_some dist visited n u hu
  · show dijkstraLoop link n (k + 1) ⟨dist, prev0, visited⟩ = _
    conv_lhs => rw [dijkstraLoop]
    rw [show (⟨dist, prev0, visited⟩ : DState).dist = dist from rfl,
      show (⟨dist, prev0, visited⟩ : DState).visited = visited from rfl, hu]
  · exact selectMin_none_iff s.dist s.visited n
  · intro hnone
    unfold dijkstraLoop
    rw [hnone]
  · intro d hd hds hinf
    obtain ⟨hdl, hpl, hself, hvis, hle, hprev⟩ := dijkstra_DInv link selfId n h
    have hpnone : (dijkstra link selfId n).prev.getD d none = none := by
      cases hp : (dijkstra link selfId n).prev.getD d none with
      | none => rfl
      | some p =>
        have := hprev d p hp
        rw [hinf] at this
        exact absurd this (lt_irrefl _)
    rw [fwdLookup_buildForwardingTable _ _ _ _ hd hds,
      walkNextHop_none _ _ _ _ hpnone]
  · rw [hlink]

/-- Witness for C1 at a concrete two-node matrix. -/
theorem claim_C1_witness :
    ((0 : Nat) < 2 ∧ ([[0, 1], [1, 0]] : List (List Int)) = [[0, 1], [1, 0]] ∧
      selectMin [0, 999] [false, false] 2 = some 0) ∧
    (((dijkstraInit 0 2).dist.getD 0 INFINITY = 0 ∧
      ∀ v, v < 2 → v ≠ 0 → (dijkstraInit 0 2).dist.getD v INFINITY = INFINITY) ∧
    dijkstra [[0, 1], [1, 0]] 0 2 = dijkstraLoop [[0, 1], [1, 0]] 2 2 (dijkstraInit 0 2) ∧
    ((0 : Nat) < 2 ∧ ([false, false] : List Bool).getD 0 false = false ∧
      ([0, 999] : List Int).getD 0 INFINITY < INFINITY ∧
      (∀ v, v < 2 → ([false, false] : List Bool).getD v false = false →
        ([0, 999] : List Int).getD 0 INFINITY ≤ ([0, 999] : List Int).getD v INFINITY) ∧
      (∀ v, v < 0 → ([false, false] : List Bool).getD v false = false →
        ([0, 999] : List Int).getD 0 INFINITY < ([0, 999] : List Int).getD v INFINITY)) ∧
    dijkstraLoop [[0, 1], [1, 0]] 2 (0 + 1) ⟨[0, 999], [none, none], [false, false]⟩ =
      dijkstraLoop [[0, 1], [1, 0]] 2 0
        (relaxAll [[0, 1], [1, 0]] 0 2
          ⟨[0, 999], [none, none], ([false, false] : List Bool).set 0 true⟩) ∧
    (selectMin (⟨[0, 999], [none, none], [true, false]⟩ : DState).dist
        (⟨[0, 999], [none, none], [true, false]⟩ : DState).visited 2 = none ↔
      ∀ v, v < 2 →
        (⟨[0, 999], [none, none], [true, false]⟩ : DState).visited.getD v false = false →
        ¬ (⟨[0, 999], [none, none], [true, false]⟩ : DState).dist.getD v INFINITY
          < INFINITY) ∧
    (selectMin (⟨[0, 999], [none, none], [true, false]⟩ : DState).dist
        (⟨[0, 999], [none, none], [true, false]⟩ : DState).visited 2 = none →
      dijkstraLoop [[0, 1], [1, 0]] 2 (0 + 1)
          (⟨[0, 999], [none, none], [true, false]⟩ : DState) =
        ⟨[0, 999], [none, none], [true, false]⟩) ∧
    (∀ d, d < 2 → d ≠ 0 →
      (dijkstra [[0, 1], [1, 0]] 0 2).dist.getD d INFINITY = INFINITY →
      fwdLookup (buildForwardingTable (dijkstra [[0, 1], [1, 0]] 0 2).prev 0 2) d =
        some none) ∧
    dijkstra [[0, 1], [1, 0]] 0 2 = dijkstra [[0, 1], [1, 0]] 0 2) :=
  ⟨⟨by decide, rfl, by decide⟩,
    claim_C1 [[0, 1], [1, 0]] [[0, 1], [1, 0]] 2 0 [0, 999] [false, false]
      [none, none] 0 0 ⟨[0, 999], [none, none], [true, false]⟩
      (by decide) rfl (by decide)⟩

/-- C2: After a shortest-path computation, the forwarding entry of each
destination other than the router itself is the result of walking the
predecessor chain from the destination back to the node whose
predecessor is the router (the next hop); when the destination's
distance is still INFINITY the entry is the unreachable marker with no
next hop; the self distance is 0 and the self entry never appears in the
forwarding table. -/
theorem claim_C2 (link : List (List Int)) (n selfId d : Nat)
    (h : selfId < n) (hd : d < n) (hds : d ≠ selfId) :
    fwdLookup (buildForwardingTable (dijkstra link selfId n).prev selfId n) d =
      some (walkNextHop (dijkstra link selfId n).prev selfId (n + 1) d) ∧
    ((dijkstra link selfId n).dist.getD d INFINITY = INFINITY →
      fwdLookup (buildForwardingTable (dijkstra link selfId n).prev selfId n) d =
        some none) ∧
    (dijkstra link selfId n).dist.getD selfId INFINITY = 0 ∧
    fwdLookup (buildForwardingTable (dijkstra link selfId n).prev selfId n) selfId =
      none := by
  obtain ⟨hdl, hpl, hself, hvis, hle, hprev⟩ := dijkstra_DInv link selfId n h
  refine ⟨fwdLookup_buildForwardingTable _ _ _ _ hd hds, ?_, hself,
    fwdLookup_buildForwardingTable_self _ _ _⟩
  intro hinf
  have hpnone : (dijkstra link selfId n).prev.getD d none = none := by
    cases hp : (dijkstra link selfId n).prev.getD d none with
    | none => rfl
    | some p =>
      have := hprev d p hp
      rw [hinf] at this
      exact absurd this (lt_irrefl _)
  rw [fwdLookup_buildForwardingTable _ _ _ _ hd hds, walkNextHop_none _ _ _ _ hpnone]

/-- Witness for C2 at a concrete two-node matrix. -/
theorem claim_C2_witness :
    ((0 : Nat) < 2 ∧ (1 : Nat) < 2 ∧ (1 : Nat) ≠ 0) ∧
    (fwdLookup (buildForwardingTable (dijkstra [[0, 1], [1, 0]] 0 2).prev 0 2) 1 =
      some (walkNextHop (dijkstra [[0, 1], [1, 0]] 0 2).prev 0 (2 + 1) 1) ∧
    ((dijkstra [[0, 1], [1, 0]] 0 2).dist.getD 1 INFINITY = INFINITY →
      fwdLookup (buildForwardingTable (dijkstra [[0, 1], [1, 0]] 0 2).prev 0 2) 1 =
        some none) ∧
    (dijkstra [[0, 1], [1, 0]] 0 2).dist.getD 0 INFINITY = 0 ∧
    fwdLookup (buildForwardingTable (dijkstra [[0, 1], [1, 0]] 0 2).prev 0 2) 0 =
      none) :=
  ⟨⟨by decide, by decide, by decide⟩,
    claim_C2 [[0, 1], [1, 0]] 2 0 1 (by decide) (by decide) (by decide)⟩

/-- C3: While fewer than `total_nodes` router ids are known, a
shortest-path timer tick performs no computation and leaves the whole
state, in particular the forwarding table, unchanged; once the store is
complete the tick computes the forwarding table, and the computed table
depends only on the cost matrix, the router id and the node count — not
on how or in which order the rows arrived. -/
theorem claim_C3 (st st2 : RState) :
    (st.received.card < st.totalNodes → computeTick st = st) ∧
    (¬ st.received.card < st.totalNodes →
      (computeTick st).forwardingTable =
        buildForwardingTable (dijkstra st.linkState st.routerId st.totalNodes).prev
          st.routerId st.totalNodes ∧
      (computeTick st).linkState = st.linkState ∧
      (computeTick st).received = st.received) ∧
    (¬ st.received.card < st.totalNodes → ¬ st2.received.card < st2.totalNodes →
      st.linkState = st2.linkState → st.routerId = st2.routerId →
      st.totalNodes = st2.totalNodes →
      (computeTick st).forwardingTable = (computeTick st2).forwardingTable) := by
  refine ⟨?_, ?_, ?_⟩
  · intro hlt
    unfold computeTick
    rw [if_pos hlt]
  · intro hge
    unfold computeTick
    rw [if_neg hge]
    exact ⟨rfl, rfl, rfl⟩
  · intro h1 h2 e1 e2 e3
    unfold computeTick
    rw [if_neg h1, if_neg h2, e1, e2, e3]

/-- Witness for C3 at a one-node router: a tick defers on an empty known
set and computes on a complete one. -/
theorem claim_C3_witness :
    computeTick ⟨0, 1, [], [[0]], ∅, []⟩ = ⟨0, 1, [], [[0]], ∅, []⟩ ∧
    (computeTick ⟨0, 1, [], [[0]], {0}, []⟩).forwardingTable =
      buildForwardingTable (dijkstra [[0]] 0 1).prev 0 1 :=
  ⟨(claim_C3 ⟨0, 1, [], [[0]], ∅, []⟩ ⟨0, 1, [], [[0]], ∅, []⟩).1 (by decide),
    ((claim_C3 ⟨0, 1, [], [[0]], {0}, []⟩ ⟨0, 1, [], [[0]], {0}, []⟩).2.1 (by decide)).1⟩

/-- C4: A received advertisement with positive ttl whose row differs
from the stored row for its origin is stored as the new row for that
origin, and is relayed with ttl decremented by one to every direct
neighbor except the origin; when the decremented ttl is not positive the
row is stored but nothing is relayed. -/
theorem claim_C4 (st : RState) (msg : Message) (sid : Int) (row : List Int)
    (t : Int) (j : Nat)
    (hr : msg.router_id = some sid) (hl : msg.link_state = some row)
    (ht : msg.ttl = some t) (htpos : 0 < t)
    (hj : pyIdx st.linkState.length sid = some j)
    (hdiff : st.linkState.getD j [] ≠ row) :
    (processReceivedMessage st msg).2.2 = none ∧
    (processReceivedMessage st msg).1.linkState = st.linkState.set j row ∧
    (processReceivedMessage st msg).1.received = insert sid st.received ∧
    (1 < t →
      (processReceivedMessage st msg).2.1 = relayTargets st.neighbors sid row (t - 1)) ∧
    (t ≤ 1 → (processReceivedMessage st msg).2.1 = []) := by
  simp only [processReceivedMessage, hr, hl, ht, Option.getD_some]
  rw [if_neg (by omega : ¬ t ≤ 0)]
  rw [show ({ st with received := insert sid st.received } : RState).linkState
    = st.linkState from rfl]
  rw [hj]
  have hdiff2 : ¬ st.linkState[j]?.getD [] = row := by
    simpa [List.getD_eq_getElem?_getD] using hdiff
  refine ⟨?_, ?_, ?_, ?_, ?_⟩
  · by_cases h1 : (1 : Int) < t <;> simp [hdiff2, h1]
  · by_cases h1 : (1 : Int) < t <;> simp [hdiff2, h1]
  · by_cases h1 : (1 : Int) < t <;> simp [hdiff2, h1]
  · intro hlt
    simp [hdiff2, hlt]
  · intro hle
    simp [hdiff2, show ¬ (1 : Int) < t by omega]

/-- Witness for C4: a three-node router 0 receives a fresh row from
origin 2 with ttl 2 and relays it, with ttl 1, to neighbor 1 only. -/
theorem claim_C4_witness :
    ((⟨some 2, some [1, 0, 1], some 2⟩ : Message).router_id = some 2 ∧
      (⟨some 2, some [1, 0, 1], some 2⟩ : Message).link_state = some [1, 0, 1] ∧
      (⟨some 2, some [1, 0, 1], some 2⟩ : Message).ttl = some 2 ∧ (0 : Int) < 2 ∧
      pyIdx ([[0, 1, 1], [999, 999, 999], [999, 999, 999]] : List (List Int)).length 2 =
        some 2 ∧
      ¬ ([[0, 1, 1], [999, 999, 999], [999, 999, 999]] : List (List Int)).getD 2 [] =
        [1, 0, 1]) ∧
    ((processReceivedMessage
        ⟨0, 3, [(1, ⟨"B", 1, 9001⟩), (2, ⟨"C", 1, 9002⟩)],
          [[0, 1, 1], [999, 999, 999], [999, 999, 999]], {0}, []⟩
        ⟨some 2, some [1, 0, 1], some 2⟩).2.2 = none ∧
    (processReceivedMessage
        ⟨0, 3, [(1, ⟨"B", 1, 9001⟩), (2, ⟨"C", 1, 9002⟩)],
          [[0, 1, 1], [999, 999, 999], [999, 999, 999]], {0}, []⟩
        ⟨some 2, some [1, 0, 1], some 2⟩).1.linkState =
      ([[0, 1, 1], [999, 999, 999], [999, 999, 999]] : List (List Int)).set 2 [1, 0, 1] ∧
    (processReceivedMessage
        ⟨0, 3, [(1, ⟨"B", 1, 9001⟩), (2, ⟨"C", 1, 9002⟩)],
          [[0, 1, 1], [999, 999, 999], [999, 999, 999]], {0}, []⟩
        ⟨some 2, some [1, 0, 1], some 2⟩).1.received = insert 2 ({0} : Finset Int) ∧
    ((1 : Int) < 2 →
      (processReceivedMessage
          ⟨0, 3, [(1, ⟨"B", 1, 9001⟩), (2, ⟨"C", 1, 9002⟩)],
            [[0, 1, 1], [999, 999, 999], [999, 999, 999]], {0}, []⟩
          ⟨some 2, some [1, 0, 1], some 2⟩).2.1 =
        relayTargets [(1, ⟨"B", 1, 9001⟩), (2, ⟨"C", 1, 9002⟩)] 2 [1, 0, 1] (2 - 1)) ∧
    ((2 : Int) ≤ 1 →
      (processReceivedMessage
          ⟨0, 3, [(1, ⟨"B", 1, 9001⟩), (2, ⟨"C", 1, 9002⟩)],
            [[0, 1, 1], [999, 999, 999], [999, 999, 999]], {0}, []⟩
          ⟨some 2, some [1, 0, 1], some 2⟩).2.1 = [])) :=
  ⟨⟨rfl, rfl, rfl, by decide, by decide, by decide⟩,
    claim_C4
      ⟨0, 3, [(1, ⟨"B", 1, 9001⟩), (2, ⟨"C", 1, 9002⟩)],
        [[0, 1, 1], [999, 999, 999], [999, 999, 999]], {0}, []⟩
      ⟨some 2, some [1, 0, 1], some 2⟩ 2 [1, 0, 1] 2 2
      rfl rfl rfl (by decide) (by decide) (by decide)⟩

/-- C5: Delivering an advertisement (positive ttl) whose row is
identical to the row already stored for its origin — the origin having
been received before, so that a row for it is indeed already stored — is
idempotent: no relay is sent and the whole state, in particular the
topology rows, the known set, and the forwarding table, is exactly as
before. -/
theorem claim_C5 (st : RState) (msg : Message) (sid : Int) (row : List Int)
    (t : Int) (j : Nat)
    (hr : msg.router_id = some sid) (hl : msg.link_state = some row)
    (ht : msg.ttl = some t) (htpos : 0 < t)
    (hknown : sid ∈ st.received)
    (hj : pyIdx st.linkState.length sid = some j)
    (hsame : st.linkState.getD j [] = row) :
    processReceivedMessage st msg = (st, [], none) := by
  have hins : insert sid st.received = st.received := Finset.insert_eq_self.mpr hknown
  simp only [processReceivedMessage, hr, hl, ht, Option.getD_some]
  rw [if_neg (by omega : ¬ t ≤ 0)]
  rw [show ({ st with received := insert sid st.received } : RState).linkState
    = st.linkState from rfl]
  rw [hj]
  have hsame2 : st.linkState[j]?.getD [] = row := by
    simpa [List.getD_eq_getElem?_getD] using hsame
  simp only [hsame2, if_pos rfl]
  rw [hins, if_pos hsame]

/-- Witness for C5: redelivering router 1's already-stored row to router
0 changes nothing. -/
theorem claim_C5_witness :
    ((⟨some 1, some [1, 0], some 5⟩ : Message).router_id = some 1 ∧
      (⟨some 1, some [1, 0], some 5⟩ : Message).link_state = some [1, 0] ∧
      (⟨some 1, some [1, 0], some 5⟩ : Message).ttl = some 5 ∧ (0 : Int) < 5 ∧
      (1 : Int) ∈ ({0, 1} : Finset Int) ∧
      pyIdx ([[0, 1], [1, 0]] : List (List Int)).length 1 = some 1 ∧
      ([[0, 1], [1, 0]] : List (List Int)).getD 1 [] = [1, 0]) ∧
    processReceivedMessage
        ⟨0, 2, [(1, ⟨"B", 1, 9001⟩)], [[0, 1], [1, 0]], {0, 1}, [(1, some 1)]⟩
        ⟨some 1, some [1, 0], some 5⟩ =
      (⟨0, 2, [(1, ⟨"B", 1, 9001⟩)], [[0, 1], [1, 0]], {0, 1}, [(1, some 1)]⟩, [], none) :=
  ⟨⟨rfl, rfl, rfl, by decide, by decide, by decide, by decide⟩,
    claim_C5 ⟨0, 2, [(1, ⟨"B", 1, 9001⟩)], [[0, 1], [1, 0]], {0, 1}, [(1, some 1)]⟩
      ⟨some 1, some [1, 0], some 5⟩ 1 [1, 0] 5 1
      rfl rfl rfl (by decide) (by decide) (by decide) (by decide)⟩

/-- C6: An advertisement whose ttl is not positive is discarded silently
and atomically: the origin is not marked known, no row is stored, no
relay is sent, and the state is unchanged. -/
theorem claim_C6 (st : RState) (msg : Message) (sid : Int) (row : List Int)
    (hr : msg.router_id = some sid) (hl : msg.link_state = some row)
    (ht : msg.ttl.getD 0 ≤ 0) :
    processReceivedMessage st msg = (st, [], none) := by
  simp only [processReceivedMessage, hr, hl]
  rw [if_pos ht]

/-- Witness for C6: a ttl-0 advertisement leaves the state untouched. -/
theorem claim_C6_witness :
    ((⟨some 1, some [1, 0], some 0⟩ : Message).router_id = some 1 ∧
      (⟨some 1, some [1, 0], some 0⟩ : Message).link_state = some [1, 0] ∧
      (⟨some 1, some [1, 0], some 0⟩ : Message).ttl.getD 0 ≤ 0) ∧
    processReceivedMessage ⟨0, 2, [(1, ⟨"B", 1, 9001⟩)], [[0, 1], [999, 999]], {0}, []⟩
        ⟨some 1, some [1, 0], some 0⟩ =
      (⟨0, 2, [(1, ⟨"B", 1, 9001⟩)], [[0, 1], [999, 999]], {0}, []⟩, [], none) :=
  ⟨⟨rfl, rfl, by decide⟩,
    claim_C6 ⟨0, 2, [(1, ⟨"B", 1, 9001⟩)], [[0, 1], [999, 999]], {0}, []⟩
      ⟨some 1, some [1, 0], some 0⟩ 1 [1, 0] rfl rfl (by decide)⟩

/-- C9: A message without a ttl field gets the default ttl 0 and is
discarded entirely: the origin is not marked known, no row is stored,
nothing is relayed, and the state is unchanged. -/
theorem claim_C9 (st : RState) (msg : Message) (sid : Int) (row : List Int)
    (hr : msg.router_id = some sid) (hl : msg.link_state = some row)
    (ht : msg.ttl = none) :
    msg.ttl.getD 0 = 0 ∧ processReceivedMessage st msg = (st, [], none) := by
  refine ⟨by rw [ht]; rfl, ?_⟩
  simp only [processReceivedMessage, hr, hl, ht]
  rw [if_pos (by norm_num : (none : Option Int).getD 0 ≤ 0)]

/-- Witness for C9: an advertisement lacking the ttl key is dropped. -/
theorem claim_C9_witness :
    ((⟨some 1, some [1, 0], none⟩ : Message).router_id = some 1 ∧
      (⟨some 1, some [1, 0], none⟩ : Message).link_state = some [1, 0] ∧
      (⟨some 1, some [1, 0], none⟩ : Message).ttl = none) ∧
    ((⟨some 1, some [1, 0], none⟩ : Message).ttl.getD 0 = 0 ∧
      processReceivedMessage ⟨0, 2, [(1, ⟨"B", 1, 9001⟩)], [[0, 1], [999, 999]], {0}, []⟩
          ⟨some 1, some [1, 0], none⟩ =
        (⟨0, 2, [(1, ⟨"B", 1, 9001⟩)], [[0, 1], [999, 999]], {0}, []⟩, [], none)) :=
  ⟨⟨rfl, rfl, rfl⟩,
    claim_C9 ⟨0, 2, [(1, ⟨"B", 1, 9001⟩)], [[0, 1], [999, 999]], {0}, []⟩
      ⟨some 1, some [1, 0], none⟩ 1 [1, 0] rfl rfl rfl⟩

/-- C7 is violated by the code; this theorem evaluates the receive path
at concrete structurally invalid messages.  An advertisement whose
router_id is outside `[0, total_nodes)` raises an uncaught IndexError
after the origin has already been added to the known set (the shared
state is corrupted and the exception escapes); a message missing a
required key raises an uncaught KeyError; and a row whose length differs
from `total_nodes` is stored without any check, silently corrupting the
cost matrix. -/
theorem claim_C7 :
    (processReceivedMessage ⟨0, 2, [(1, ⟨"B", 1, 9001⟩)], [[0, 1], [999, 999]], {0}, []⟩
        ⟨some 5, some [0, 1], some 3⟩).2.2 = some PyErr.indexError ∧
    (processReceivedMessage ⟨0, 2, [(1, ⟨"B", 1, 9001⟩)], [[0, 1], [999, 999]], {0}, []⟩
        ⟨some 5, some [0, 1], some 3⟩).1.received ≠ ({0} : Finset Int) ∧
    (processReceivedMessage ⟨0, 2, [(1, ⟨"B", 1, 9001⟩)], [[0, 1], [999, 999]], {0}, []⟩
        ⟨none, some [0, 1], some 3⟩).2.2 = some PyErr.keyError ∧
    (processReceivedMessage ⟨0, 2, [(1, ⟨"B", 1, 9001⟩)], [[0, 1], [999, 999]], {0}, []⟩
        ⟨some 1, some [0, 1, 2], some 3⟩).1.linkState.getD 1 [] = [0, 1, 2] ∧
    (processReceivedMessage ⟨0, 2, [(1, ⟨"B", 1, 9001⟩)], [[0, 1], [999, 999]], {0}, []⟩
        ⟨some 1, some [0, 1, 2], some 3⟩).2.2 = none := by
  refine ⟨by decide, by decide, by decide, by decide, by decide⟩

/-- C10: In `load_config`, a 4-field line whose neighbor id, cost, or
port is not an integer raises an uncaught ValueError that aborts
startup (no further line is processed), while the warn-and-skip recovery
applies exactly to the non-blank lines whose field count is not 4. -/
theorem claim_C10 (line line2 : List String) (rest : List (List String))
    (acc acc2 : List (Int × NeighborInfo))
    (h4 : line.length = 4)
    (hbad : pyInt (line.getD 1 "") = none ∨ pyInt (line.getD 2 "") = none ∨
      pyInt (line.getD 3 "") = none)
    (hne : line2 ≠ []) (hn4 : line2.length ≠ 4) :
    loadConfigLoop acc (line :: rest) = Except.error ConfigErr.valueError ∧
    loadConfigLoop acc2 (line2 :: rest) = loadConfigLoop acc2 rest := by
  constructor
  · have hp : parseNeighborLine acc line = Except.error ConfigErr.valueError := by
      unfold parseNeighborLine
      rw [if_neg (by intro hc; rw [hc] at h4; simp at h4), if_neg (by omega)]
      rcases hbad with hb | hb | hb
      · rw [hb]
      · cases hc : pyInt (line.getD 1 "") with
        | none => rfl
        | some z => rw [hb]
      · cases hc : pyInt (line.getD 1 "") with
        | none => rfl
        | some z =>
          cases hc2 : pyInt (line.getD 2 "") with
          | none => rfl
          | some z2 => rw [hb]
    conv_lhs => rw [loadConfigLoop]
    rw [hp]
  · have hp : parseNeighborLine acc2 line2 = Except.ok acc2 := by
      unfold parseNeighborLine
      rw [if_neg hne, if_pos hn4]
    conv_lhs => rw [loadConfigLoop]
    rw [hp]

/-- Witness for C10: the line `A x 2 3` aborts loading, the 3-field line
`B 1 2` is skipped. -/
theorem claim_C10_witness :
    ((["A", "x", "2", "3"] : List String).length = 4 ∧
      pyInt ((["A", "x", "2", "3"] : List String).getD 1 "") = none ∧
      (["B", "1", "2"] : List String) ≠ [] ∧
      (["B", "1", "2"] : List String).length ≠ 4) ∧
    (loadConfigLoop [] [["A", "x", "2", "3"]] = Except.error ConfigErr.valueError ∧
      loadConfigLoop [] [["B", "1", "2"]] = loadConfigLoop [] []) :=
  ⟨⟨rfl, by decide, by decide, by decide⟩,
    claim_C10 ["A", "x", "2", "3"] ["B", "1", "2"] [] [] []
      rfl (Or.inl (by decide)) (by decide) (by decide)⟩

/-- Characterization of the neighbor-cost loop of
`initialize_link_state` for in-range, pairwise distinct neighbor ids. -/
theorem initFold_spec (selfId n : Nat) (hs : selfId < n) :
    ∀ (l : List (Int × NeighborInfo)) (m : List (List Int)),
      m.length = n → (m.getD selfId []).length = n →
      (∀ p ∈ l, 0 ≤ p.1 ∧ p.1 < (n : Int)) →
      (l.map Prod.fst).Nodup →
      ∃ mm,
        initFold selfId (some m) l = some mm ∧
        mm.length = n ∧ (mm.getD selfId []).length = n ∧
        (∀ p ∈ l, (mm.getD selfId []).getD p.1.toNat INFINITY = p.2.cost) ∧
        (∀ j : Nat, (∀ p ∈ l, p.1.toNat ≠ j) →
          (mm.getD selfId []).getD j INFINITY = (m.getD selfId []).getD j INFINITY) := by
  intro l
  induction l with
  | nil =>
    intro m hm hr _ _
    exact ⟨m, rfl, hm, hr, fun p hp => absurd hp (List.not_mem_nil p), fun j _ => rfl⟩
  | cons p rest ih =>
    intro m hm hr hl hnd
    have hp0 : 0 ≤ p.1 ∧ p.1 < (n : Int) := hl p (List.mem_cons_self _ _)
    have hpy : pyIdx (m.getD selfId []).length p.1 = some p.1.toNat := by
      rw [hr]
      exact pyIdx_nonneg n p.1 hp0.1 hp0.2
    have hm2len : (m.set selfId ((m.getD selfId []).set p.1.toNat p.2.cost)).length = n := by
      rw [List.length_set]
      exact hm
    have hrow2 : (m.set selfId ((m.getD selfId []).set p.1.toNat p.2.cost)).getD selfId []
        = (m.getD selfId []).set p.1.toNat p.2.cost :=
      getD_set_self _ _ _ _ (by rw [hm]; exact hs)
    have hr2 : ((m.set selfId ((m.getD selfId []).set p.1.toNat p.2.cost)).getD
        selfId []).length = n := by
      rw [hrow2, List.length_set]
      exact hr
    have hnd2 : ((p :: rest).map Prod.fst).Nodup = (p.1 :: rest.map Prod.fst).Nodup := rfl
    have hndc := List.nodup_cons.mp (hnd2 ▸ hnd)
    obtain ⟨mm, hfold, hmmlen, hmmrow, hmem, huntouched⟩ :=
      ih (m.set selfId ((m.getD selfId []).set p.1.toNat p.2.cost)) hm2len hr2
        (fun q hq => hl q (List.mem_cons_of_mem _ hq)) hndc.2
    refine ⟨mm, ?_, hmmlen, hmmrow, ?_, ?_⟩
    · rw [initFold]
      rw [show ((some m).bind fun mx =>
          (pyIdx (mx.getD selfId []).length p.1).map fun j =>
            mx.set selfId ((mx.getD selfId []).set j p.2.cost))
          = some (m.set selfId ((m.getD selfId []).set p.1.toNat p.2.cost)) from by
        show ((pyIdx (m.getD selfId []).length p.1).map fun j =>
          m.set selfId ((m.getD selfId []).set j p.2.cost)) = _
        rw [hpy]
        rfl]
      exact hfold
    · intro q hq
      rcases List.mem_cons.mp hq with hq | hq
      · subst hq
        have hrest : ∀ r ∈ rest, r.1.toNat ≠ q.1.toNat := by
          intro r hrr hc
          have hr0 : 0 ≤ r.1 := (hl r (List.mem_cons_of_mem _ hrr)).1
          have hrne : r.1 ≠ q.1 := by
            intro hcc
            exact hndc.1 (hcc ▸ List.mem_map_of_mem Prod.fst hrr)
          omega
        rw [huntouched q.1.toNat hrest, hrow2,
          getD_set_self _ _ _ _ (by rw [hr]; omega)]
      · exact hmem q hq
    · intro j hjall
      have hrest : ∀ r ∈ rest, r.1.toNat ≠ j := fun r hrr =>
        hjall r (List.mem_cons_of_mem _ hrr)
      rw [huntouched j hrest, hrow2,
        getD_set_ne _ _ _ _ _ (hjall p (List.mem_cons_self _ _))]

/-- The claim C8 as literally stated is false: the code applies
receive-and-relay to an advertisement whose router_id equals the
router's own id, and that overwrites the self row.  At router 0 with
matrix `[[0, 1], [999, 999]]`, the advertisement
`(router_id 0, row [5, 5], ttl 3)` replaces the self row by `[5, 5]`. -/
theorem claim_C8_counterexample :
    (processReceivedMessage ⟨0, 2, [(1, ⟨"B", 1, 9001⟩)], [[0, 1], [999, 999]], {0}, []⟩
        ⟨some 0, some [5, 5], some 3⟩).1.linkState.getD 0 [] ≠
      ([[0, 1], [999, 999]] : List (List Int)).getD 0 [] := by
  decide

/-- C8 (amended): After initialization the self row has 0 on the
diagonal, the configured cost at every direct neighbor, and INFINITY
elsewhere (for a valid configuration: in-range, pairwise distinct
neighbor ids none of which is the router itself); the shortest-path tick
never changes the cost matrix; and receive-and-relay preserves the self
row for every advertisement whose router_id does not resolve, under
Python list indexing, to the self row — an advertisement carrying the
router's own id (or its negative-index alias) does overwrite it. -/
theorem claim_C8 (selfId n : Nat) (neighbors : List (Int × NeighborInfo))
    (st : RState) (msg : Message) (sid : Int)
    (h : selfId < n)
    (hnb : ∀ p ∈ neighbors, 0 ≤ p.1 ∧ p.1 < (n : Int) ∧ p.1 ≠ (selfId : Int))
    (hnd : (neighbors.map Prod.fst).Nodup)
    (hr : msg.router_id = some sid)
    (hsid : ∀ j, pyIdx st.linkState.length sid = some j → j ≠ st.routerId) :
    (∃ mm, initLinkState selfId n neighbors = some mm ∧
      (mm.getD selfId []).getD selfId INFINITY = 0 ∧
      (∀ p ∈ neighbors, (mm.getD selfId []).getD p.1.toNat INFINITY = p.2.cost) ∧
      (∀ j, j < n → j ≠ selfId → (∀ p ∈ neighbors, p.1.toNat ≠ j) →
        (mm.getD selfId []).getD j INFINITY = INFINITY)) ∧
    (processReceivedMessage st msg).1.linkState.getD st.routerId [] =
      st.linkState.getD st.routerId [] ∧
    (computeTick st).linkState = st.linkState := by
  refine ⟨?_, ?_, ?_⟩
  · have hbase : (List.replicate n (List.replicate n INFINITY)).getD selfId []
        = List.replicate n INFINITY := getD_replicate _ _ _ _ h
    have hm0row : ((List.replicate n (List.replicate n INFINITY)).set selfId
        ((List.replicate n (List.replicate n INFINITY)).getD selfId []
          |>.set selfId 0)).getD selfId []
        = (List.replicate n INFINITY).set selfId 0 := by
      rw [hbase]
      exact getD_set_self _ _ _ _ (by simp; exact h)
    obtain ⟨mm, hfold, hmmlen, hmmrowlen, hmem, huntouched⟩ :=
      initFold_spec selfId n h neighbors
        ((List.replicate n (List.replicate n INFINITY)).set selfId
          ((List.replicate n (List.replicate n INFINITY)).getD selfId []
            |>.set selfId 0))
        (by simp)
        (by rw [hm0row]; simp)
        (fun p hp => ⟨(hnb p hp).1, (hnb p hp).2.1⟩) hnd
    refine ⟨mm, hfold, ?_, hmem, ?_⟩
    · have hall : ∀ p ∈ neighbors, p.1.toNat ≠ selfId := by
        intro p hp hc
        have h1 := (hnb p hp).1
        have h3 := (hnb p hp).2.2
        omega
      rw [huntouched selfId hall, hm0row, getD_set_self _ _ _ _ (by simp; exact h)]
    · intro j hj hjs hjn
      rw [huntouched j hjn, hm0row, getD_set_ne _ _ _ _ _ fun hc => hjs hc.symm,
        getD_replicate _ _ _ _ hj]
  · cases hls : msg.link_state with
    | none => simp [processReceivedMessage, hr, hls]
    | some row =>
      simp only [processReceivedMessage, hr, hls]
      by_cases httl : msg.ttl.getD 0 ≤ 0
      · rw [if_pos httl]
      · rw [if_neg httl]
        cases hpy : pyIdx st.linkState.length sid with
        | none => rfl
        | some j =>
          have hjne := hsid j hpy
          have hset : (st.linkState.set j row).getD st.routerId [] =
              st.linkState.getD st.routerId [] :=
            getD_set_ne _ _ _ _ _ hjne
          have hset2 : (st.linkState.set j row)[st.routerId]?.getD [] =
              st.linkState[st.routerId]?.getD [] := by
            simpa [List.getD_eq_getElem?_getD] using hset
          by_cases hsame : st.linkState[j]?.getD [] = row
          · simp [hsame]
          · by_cases h1 : (1 : Int) < msg.ttl.getD 0 <;> simp [hsame, h1, hset2]
  · unfold computeTick
    by_cases hc : st.received.card < st.totalNodes
    · rw [if_pos hc]
    · rw [if_neg hc]

/-- Witness for C8 (amended) at a two-node router receiving a row from
origin 1. -/
theorem claim_C8_witness :
    ((0 : Nat) < 2 ∧
      (∀ p ∈ [((1 : Int), (⟨"B", 1, 9001⟩ : NeighborInfo))],
        0 ≤ p.1 ∧ p.1 < (2 : Int) ∧ p.1 ≠ ((0 : Nat) : Int)) ∧
      (([((1 : Int), (⟨"B", 1, 9001⟩ : NeighborInfo))].map Prod.fst).Nodup) ∧
      (⟨some 1, some [1, 0], some 3⟩ : Message).router_id = some 1) ∧
    ((∃ mm, initLinkState 0 2 [((1 : Int), (⟨"B", 1, 9001⟩ : NeighborInfo))] = some mm ∧
      (mm.getD 0 []).getD 0 INFINITY = 0 ∧
      (∀ p ∈ [((1 : Int), (⟨"B", 1, 9001⟩ : NeighborInfo))],
        (mm.getD 0 []).getD p.1.toNat INFINITY = p.2.cost) ∧
      (∀ j, j < 2 → j ≠ 0 →
        (∀ p ∈ [((1 : Int), (⟨"B", 1, 9001⟩ : NeighborInfo))], p.1.toNat ≠ j) →
        (mm.getD 0 []).getD j INFINITY = INFINITY)) ∧
    (processReceivedMessage ⟨0, 2, [(1, ⟨"B", 1, 9001⟩)], [[0, 1], [999, 999]], {0}, []⟩
        ⟨some 1, some [1, 0], some 3⟩).1.linkState.getD
      (⟨0, 2, [(1, ⟨"B", 1, 9001⟩)], [[0, 1], [999, 999]], {0}, []⟩ : RState).routerId [] =
      (⟨0, 2, [(1, ⟨"B", 1, 9001⟩)], [[0, 1], [999, 999]], {0}, []⟩ : RState).linkState.getD
        (⟨0, 2, [(1, ⟨"B", 1, 9001⟩)], [[0, 1], [999, 999]], {0}, []⟩ : RState).routerId [] ∧
    (computeTick ⟨0, 2, [(1, ⟨"B", 1, 9001⟩)], [[0, 1], [999, 999]], {0}, []⟩).linkState =
      (⟨0, 2, [(1, ⟨"B", 1, 9001⟩)], [[0, 1], [999, 999]], {0}, []⟩ : RState).linkState) :=
  ⟨⟨by decide, by decide, by decide, rfl⟩,
    claim_C8 0 2 [((1 : Int), (⟨"B", 1, 9001⟩ : NeighborInfo))]
      ⟨0, 2, [(1, ⟨"B", 1, 9001⟩)], [[0, 1], [999, 999]], {0}, []⟩
      ⟨some 1, some [1, 0], some 3⟩ 1
      (by decide) (by decide) (by decide) rfl
      (by
        intro j hj
        rw [show pyIdx
          (⟨0, 2, [(1, ⟨"B", 1, 9001⟩)], [[0, 1], [999, 999]], {0}, []⟩ :
            RState).linkState.length 1 = some 1 from by decide] at hj
        cases hj
        decide)⟩

end RouterSim
